import Mathlib

/-!
Shallow embedding of the managed database connection lifecycle of
gin-microservice-template (package postgres, file src/unnamed/part_001).

Modelling conventions:
- time is counted in integer milliseconds (`Millis`); the Go constants
  10*time.Second, 30*time.Second, 5*time.Second, time.Second and
  100*time.Millisecond become 10000, 30000, 5000, 1000 and 100;
- a liveness probe (db.PingContext) is abstracted by its outcome, an
  `Option String` where `none` is success and `some e` is the error text;
- caller context cancellation is abstracted by a boolean sampled exactly
  where the Go code selects on ctx.Done();
- lock usage of each method is recorded as the literal sequence of
  RWMutex calls appearing in its body.
-/

namespace Postgres

abbrev Millis := Nat

/-- Embedding of config.DatabaseConfig (the fields the core uses). -/
structure DatabaseConfig where
  maxOpenConns : Nat
  maxIdleConns : Nat
  connMaxLifetime : Millis
deriving Repr, DecidableEq

/-- Embedding of ConnectionStats (part_001 lines 32-41). -/
structure ConnectionStats where
  openConnections : Nat
  inUseConnections : Nat
  idleConnection : Nat
  waitCount : Nat
  waitDuration : Millis
  maxIdleClosed : Int
  maxIdleTimeClosed : Int
  maxLifeTimeClosed : Int
deriving Repr, DecidableEq

/-- The health-related fields of Store guarded by mu
    (part_001 lines 22-24): lastHealthCheck and isHealthy. -/
structure HealthState where
  lastHealthCheck : Millis
  isHealthy : Bool
deriving Repr, DecidableEq

/-- Embedding of Store.HealthCheck (part_001 lines 153-171).
    The whole body runs inside one mu.Lock/mu.Unlock critical section, so it
    is modelled as a single atomic state transformation: given the probe
    outcome `pingErr` (db.PingContext under the supplied deadline) and the
    current time, it writes both lastHealthCheck and isHealthy, and returns
    the wrapped error exactly when the probe failed. -/
def HealthCheck (s : HealthState) (pingErr : Option String) (now : Millis) :
    HealthState × Option String :=
  let s1 : HealthState := { lastHealthCheck := now, isHealthy := pingErr.isNone }
  match pingErr with
  | some e => (s1, some ("database health check failed: " ++ e))
  | none => (s1, none)

/-- Embedding of Store.IsHealthy (part_001 lines 174-178): under mu.Lock it
    returns the stored isHealthy flag and performs no probe. -/
def IsHealthy (s : HealthState) : Bool :=
  s.isHealthy

/-- RWMutex calls, as they appear syntactically in the source. -/
inductive LockEvent where
  | rlock
  | runlock
  | lock
  | unlock
deriving Repr, DecidableEq

/-- Lock calls made by GetStats (part_001 lines 136-137):
    s.mu.RLock() then defer s.mu.Unlock(). -/
def getStatsLockEvents : List LockEvent := [LockEvent.rlock, LockEvent.unlock]

/-- Lock calls made by HealthCheck (part_001 lines 154-155):
    s.mu.Lock() then defer s.mu.Unlock(). -/
def healthCheckLockEvents : List LockEvent := [LockEvent.lock, LockEvent.unlock]

/-- Lock calls made by IsHealthy (part_001 lines 175-176):
    s.mu.Lock() then defer s.mu.Unlock(). -/
def isHealthyLockEvents : List LockEvent := [LockEvent.lock, LockEvent.unlock]

/-- Runs a sequence of RWMutex calls against a (readers, writers) count,
    following the Go sync.RWMutex contract: RUnlock faults unless a read
    hold is outstanding, Unlock faults unless a write hold is outstanding
    (releasing a read hold with Unlock is a run-time fault). `none` is a
    run-time fault. -/
def runLocks : List LockEvent → Nat → Nat → Option (Nat × Nat)
  | [], r, w => some (r, w)
  | LockEvent.rlock :: rest, r, w => runLocks rest (r + 1) w
  | LockEvent.lock :: rest, r, w => runLocks rest r (w + 1)
  | LockEvent.runlock :: rest, r + 1, w => runLocks rest r w
  | LockEvent.runlock :: _, 0, _ => none
  | LockEvent.unlock :: rest, r, w + 1 => runLocks rest r w
  | LockEvent.unlock :: _, _, 0 => none

/-- Lock discipline holds for a method when its lock calls run without a
    fault and end with every hold released in the matching mode. -/
def lockDisciplineOK (evs : List LockEvent) : Bool :=
  runLocks evs 0 0 == some (0, 0)

/-- Per-process Store state relevant to the claims: the guarded health
    fields, the lifecycle cancellation flag (ctx/cancel, lines 28-29), how
    many monitoring cycles have run, and whether the monitor was started. -/
structure StoreState where
  health : HealthState
  cancelled : Bool
  cyclesRun : Nat
  monitorStarted : Bool
deriving Repr, DecidableEq

/-- Abstract inputs to newStore: the outcome of sql.Open, the outcome of the
    initial db.PingContext probe, and the current time. -/
structure NewStoreEnv where
  openErr : Option String
  pingErr : Option String
  now : Millis
deriving Repr, DecidableEq

/-- Timeout (milliseconds) of the context bounding the initial liveness
    probe in newStore (part_001 line 55: 10*time.Second). -/
def newStorePingTimeout : Millis := 10000

/-- Embedding of newStore (part_001 lines 43-84). Returns the construction
    result together with the number of open database handles after the call:
    if sql.Open fails nothing was opened; if the probe fails the opened
    handle is released by db.Close() before returning the error; on success
    the store holds the one open handle, its health state is initialised to
    isHealthy = true and lastHealthCheck = now, and the monitoring goroutine
    is started. -/
def newStore (env : NewStoreEnv) : Except String StoreState × Nat :=
  match env.openErr with
  | some e => (Except.error ("failed to open database connection: " ++ e), 0)
  | none =>
    match env.pingErr with
    | some e => (Except.error ("failed to pink database: " ++ e), 0)
    | none =>
      (Except.ok
        { health := { lastHealthCheck := env.now, isHealthy := true }
          cancelled := false
          cyclesRun := 0
          monitorStarted := true }, 1)

/-- Embedding of Store.Close (part_001 lines 181-190): it fires the
    lifecycle cancellation (s.cancel()) and releases the handle. Only the
    cancellation flag matters to the monitoring claims. -/
def Close (s : StoreState) : StoreState :=
  { s with cancelled := true }

/-- The cases of the select statement inside the monitoring loop. -/
inductive SelectCase where
  | tickerC
  | ctxDone
deriving Repr, DecidableEq

/-- The select statement of the for-loop in startConnectionMonitoring
    (part_001 lines 90-95) has exactly one case, case <-ticker.C; in
    particular there is no case <-s.ctx.Done(). -/
def monitoringSelectCases : List SelectCase := [SelectCase.tickerC]

/-- Period (milliseconds) of the monitoring ticker
    (part_001 line 87: 30*time.Second). -/
def monitorPeriod : Millis := 30000

/-- Threshold (milliseconds) above which the cumulative pool wait triggers a
    latency warning (part_001 line 122: time.Second). -/
def waitWarnThreshold : Millis := 1000

/-- Embedding of the saturation threshold int(float64(maxConns)*0.8)
    (part_001 line 112) in exact integer arithmetic: truncating
    float64(maxConns)*0.8 equals the floor of 4*maxConns/5 for every
    maxConns below 2^50 (the float product differs from the exact rational
    by far less than its distance to the nearest integer below, and for
    multiples of 5 the rounding error is upward), so Nat division embeds it
    exactly on the whole int range of the config field. -/
def saturationThreshold (maxConns : Nat) : Nat :=
  4 * maxConns / 5

/-- Warnings monitorConnections can emit. -/
inductive Warning where
  | saturation (openConns maxConns : Nat)
  | latency (waitDuration : Millis)
deriving Repr, DecidableEq

/-- Warnings emitted by one run of monitorConnections
    (part_001 lines 109-124), in source order. -/
def monitorWarnings (stats : ConnectionStats) (maxConns : Nat) : List Warning :=
  (if saturationThreshold maxConns < stats.openConnections then
    [Warning.saturation stats.openConnections maxConns]
  else []) ++
  (if waitWarnThreshold < stats.waitDuration then
    [Warning.latency stats.waitDuration]
  else [])

/-- Embedding of monitorConnections (part_001 lines 98-133): it snapshots
    stats, emits the warnings, and performs a HealthCheck bounded by a
    5 time-unit context, swallowing (logging) any probe error. Given the
    snapshot and the probe outcome it returns the updated store state and
    the warnings. -/
def monitorConnections (stats : ConnectionStats) (probeErr : Option String)
    (now : Millis) (maxConns : Nat) (s : StoreState) :
    StoreState × List Warning :=
  ({ s with health := (HealthCheck s.health probeErr now).1 },
    monitorWarnings stats maxConns)

/-- One tick of the loop in startConnectionMonitoring (part_001 lines
    90-95). Faithful translation: the select has the single case
    <-ticker.C, whose body runs s.monitorConnections(); since no case
    observes s.ctx.Done(), the cycle runs whether or not the lifecycle
    context has been cancelled, so the transition does not consult
    s.cancelled at all. -/
def monitorTick (stats : ConnectionStats) (probeErr : Option String)
    (now : Millis) (maxConns : Nat) (s : StoreState) : StoreState :=
  let s1 := (monitorConnections stats probeErr now maxConns s).1
  { s1 with cyclesRun := s.cyclesRun + 1 }

/-- Runs a sequence of health probes (each a probe outcome paired with its
    completion time) through HealthCheck, starting from a given health
    state. -/
def runProbes (init : HealthState) : List (Option String × Millis) → HealthState
  | [] => init
  | p :: rest => runProbes (HealthCheck init p.1 p.2).1 rest

/-- Result of ExecuteWithRetry: success at a given attempt number, the
    caller cancellation error from ctx.Err(), or the exhausted-retry error
    carrying the attempt count reported by the source (maxRetries) and the
    last stored failure. -/
inductive RetryOutcome where
  | ok (attempt : Nat)
  | cancelled (attempt : Nat)
  | exhausted (reportedAttempts : Nat) (lastErr : Option String)
deriving Repr, DecidableEq

/-- Observable trace of one ExecuteWithRetry call: its outcome, how many
    times the operation body executed, and the durations (milliseconds) of
    the completed backoff sleeps, in order. -/
structure RetryTrace where
  outcome : RetryOutcome
  execs : Nat
  sleeps : List Millis
deriving Repr, DecidableEq

/-- Loop body of ExecuteWithRetry (part_001 lines 201-222), recursing on
    rem, the number of loop iterations still allowed; the Go loop guard
    attempt < maxRetries corresponds to rem > 0 under the invariant
    attempt + rem = maxRetries maintained from the entry point. `op i` is
    the outcome of executing the operation on attempt i (none is success);
    `ctxDone i` tells whether the select after a failed attempt i sees
    ctx.Done() ready before the backoff timer fires. The inner Go check
    if attempt < maxRetries (line 206) is kept verbatim even though it is
    implied by the loop guard. -/
def retryLoop (op : Nat → Option String) (ctxDone : Nat → Bool)
    (maxRetries : Nat) :
    Nat → Nat → Option String → Nat → List Millis → RetryTrace
  | _, 0, lastErr, execs, sleeps =>
    { outcome := RetryOutcome.exhausted maxRetries lastErr
      execs := execs
      sleeps := sleeps }
  | attempt, rem + 1, lastErr, execs, sleeps =>
    match op attempt with
    | none =>
      { outcome := RetryOutcome.ok attempt, execs := execs + 1, sleeps := sleeps }
    | some e =>
      if attempt < maxRetries then
        if ctxDone attempt then
          { outcome := RetryOutcome.cancelled attempt
            execs := execs + 1
            sleeps := sleeps }
        else
          retryLoop op ctxDone maxRetries (attempt + 1) rem (some e)
            (execs + 1) (sleeps ++ [attempt * 100])
      else
        retryLoop op ctxDone maxRetries (attempt + 1) rem (some e)
          (execs + 1) sleeps

/-- Embedding of Store.ExecuteWithRetry (part_001 lines 198-225): the loop
    starts at attempt 1 and runs while attempt < maxRetries, so at most
    maxRetries - 1 iterations. -/
def ExecuteWithRetry (op : Nat → Option String) (ctxDone : Nat → Bool)
    (maxRetries : Nat) : RetryTrace :=
  retryLoop op ctxDone maxRetries 1 (maxRetries - 1) none 0 []

/-- Helper: the loop body executes the operation at most once per remaining
    iteration. -/
lemma retryLoop_execs_le (op : Nat → Option String) (cd : Nat → Bool)
    (m : Nat) : ∀ rem attempt lastErr execs sleeps,
    (retryLoop op cd m attempt rem lastErr execs sleeps).execs ≤ execs + rem := by
  intro rem
  induction rem with
  | zero => intro attempt lastErr execs sleeps; simp [retryLoop]
  | succ rem ih =>
    intro attempt lastErr execs sleeps
    simp only [retryLoop]
    cases op attempt with
    | none => simp
    | some e =>
      by_cases h : attempt < m
      · simp only [h, if_true]
        cases hcd : cd attempt with
        | true => simp
        | false =>
          simp only [Bool.false_eq_true, if_false]
          calc (retryLoop op cd m (attempt + 1) rem (some e) (execs + 1)
                  (sleeps ++ [attempt * 100])).execs
              ≤ (execs + 1) + rem := ih (attempt + 1) (some e) (execs + 1) _
            _ = execs + (rem + 1) := by omega
      · simp only [h, if_false]
        calc (retryLoop op cd m (attempt + 1) rem (some e) (execs + 1)
                sleeps).execs
            ≤ (execs + 1) + rem := ih (attempt + 1) (some e) (execs + 1) _
          _ = execs + (rem + 1) := by omega

/-- Helper: shifting the backoff-duration list by one attempt. -/
lemma range_map_shift (attempt k : Nat) :
    attempt * 100 :: (List.range k).map (fun j => (attempt + 1 + j) * 100) =
      (List.range (k + 1)).map (fun j => (attempt + j) * 100) := by
  rw [List.range_succ_eq_map, List.map_cons, List.map_map]
  have hf : ((fun j => (attempt + j) * 100) ∘ Nat.succ) =
      fun j => (attempt + 1 + j) * 100 := by
    funext j
    simp only [Function.comp, Nat.succ_eq_add_one]
    ring
  rw [hf]
  simp

/-- Helper: when every attempt fails and the caller deadline never fires,
    the loop runs all remaining iterations, sleeping attempt * 100 after
    each failure, and ends with the exhausted error carrying maxRetries and
    the failure of the last executed attempt. -/
lemma retryLoop_allfail (op : Nat → Option String) (cd : Nat → Bool)
    (m : Nat) (hop : ∀ i, (op i).isSome) (hcd : ∀ i, cd i = false) :
    ∀ rem attempt lastErr execs sleeps, attempt + rem = m →
    retryLoop op cd m attempt rem lastErr execs sleeps =
      { outcome := RetryOutcome.exhausted m
          (if rem = 0 then lastErr else op (m - 1))
        execs := execs + rem
        sleeps := sleeps ++ (List.range rem).map (fun j => (attempt + j) * 100) } := by
  intro rem
  induction rem with
  | zero =>
    intro attempt lastErr execs sleeps hinv
    simp [retryLoop]
  | succ rem ih =>
    intro attempt lastErr execs sleeps hinv
    have hlt : attempt < m := by omega
    obtain ⟨e, he⟩ := Option.isSome_iff_exists.mp (hop attempt)
    simp only [retryLoop, he, hlt, if_true, hcd attempt, Bool.false_eq_true,
      if_false]
    rw [ih (attempt + 1) (some e) (execs + 1) (sleeps ++ [attempt * 100])
      (by omega)]
    have hlast : (if rem = 0 then some e else op (m - 1)) = op (m - 1) := by
      cases rem with
      | zero =>
        have : m - 1 = attempt := by omega
        simp [this, he]
      | succ rem => rfl
    rw [hlast]
    have hsl : (sleeps ++ [attempt * 100]) ++
        (List.range rem).map (fun j => (attempt + 1 + j) * 100) =
        sleeps ++ (List.range (rem + 1)).map (fun j => (attempt + j) * 100) := by
      rw [List.append_assoc, List.singleton_append, range_map_shift]
    rw [hsl]
    have hex : execs + 1 + rem = execs + (rem + 1) := by omega
    rw [hex]
    simp

/-- Helper: when attempts from the current one through attempt a all fail,
    the deadline stays quiet strictly before a and fires at a, the loop
    cancels right after executing attempt a, having slept only after the
    earlier failures. -/
lemma retryLoop_cancel (op : Nat → Option String) (cd : Nat → Bool)
    (m a : Nat) (ha : a < m)
    (hop : ∀ i, i ≤ a → (op i).isSome)
    (hcd : ∀ i, i < a → cd i = false) (hca : cd a = true) :
    ∀ rem attempt lastErr execs sleeps, attempt + rem = m → attempt ≤ a →
    retryLoop op cd m attempt rem lastErr execs sleeps =
      { outcome := RetryOutcome.cancelled a
        execs := execs + (a + 1 - attempt)
        sleeps := sleeps ++
          (List.range (a - attempt)).map (fun j => (attempt + j) * 100) } := by
  intro rem
  induction rem with
  | zero =>
    intro attempt lastErr execs sleeps hinv hle
    omega
  | succ rem ih =>
    intro attempt lastErr execs sleeps hinv hle
    have hlt : attempt < m := by omega
    obtain ⟨e, he⟩ := Option.isSome_iff_exists.mp (hop attempt hle)
    by_cases haa : attempt = a
    · subst haa
      simp only [retryLoop, he, hlt, if_true, hca]
      simp
    · have hlta : attempt < a := by omega
      simp only [retryLoop, he, hlt, if_true, hcd attempt hlta,
        Bool.false_eq_true, if_false]
      rw [ih (attempt + 1) (some e) (execs + 1) (sleeps ++ [attempt * 100])
        (by omega) (by omega)]
      have hex : execs + 1 + (a + 1 - (attempt + 1)) = execs + (a + 1 - attempt) := by
        omega
      have hk : a - attempt = (a - (attempt + 1)) + 1 := by omega
      have hsl : (sleeps ++ [attempt * 100]) ++
          (List.range (a - (attempt + 1))).map (fun j => (attempt + 1 + j) * 100) =
          sleeps ++ (List.range (a - attempt)).map (fun j => (attempt + j) * 100) := by
        rw [List.append_assoc, List.singleton_append, range_map_shift, ← hk]
      rw [hex, hsl]

/-- Claim C2: for every positive maxAttempts, ExecuteWithRetry numbers
    attempts from 1 and continues while attempt < maxAttempts, so the
    operation executes at most maxAttempts - 1 times; with maxAttempts = 1
    the operation body never executes and the call returns the
    exhausted-retry error (wrapping no failure) immediately, with no sleep. -/
theorem c2_retry_off_by_one (op : Nat → Option String) (cd : Nat → Bool)
    (m : Nat) :
    (ExecuteWithRetry op cd m).execs ≤ m - 1 ∧
    ExecuteWithRetry op cd 1 =
      { outcome := RetryOutcome.exhausted 1 none, execs := 0, sleeps := [] } := by
  constructor
  · have h := retryLoop_execs_le op cd m (m - 1) 1 none 0 []
    simpa [ExecuteWithRetry] using h
  · rfl

/-- Claim C4: for an always-failing operation and maxAttempts at least 2,
    when the deadline never fires, ExecuteWithRetry returns the exhausted
    error carrying the reported attempt count maxAttempts and the failure
    of the last executed attempt (attempt maxAttempts - 1), after exactly
    maxAttempts - 1 executions and exactly maxAttempts - 1 backoff sleeps. -/
theorem c4_exhausted_after_all_attempts (op : Nat → Option String)
    (cd : Nat → Bool) (m : Nat) (hm : 2 ≤ m)
    (hop : ∀ i, (op i).isSome) (hcd : ∀ i, cd i = false) :
    ExecuteWithRetry op cd m =
      { outcome := RetryOutcome.exhausted m (op (m - 1))
        execs := m - 1
        sleeps := (List.range (m - 1)).map (fun j => (1 + j) * 100) } ∧
    (ExecuteWithRetry op cd m).execs = m - 1 ∧
    (ExecuteWithRetry op cd m).sleeps.length = m - 1 := by
  have h := retryLoop_allfail op cd m hop hcd (m - 1) 1 none 0 [] (by omega)
  have hrem : ¬(m - 1 = 0) := by omega
  rw [if_neg hrem] at h
  refine ⟨?_, ?_, ?_⟩
  · simpa [ExecuteWithRetry] using h
  · simp [ExecuteWithRetry, h]
  · simp [ExecuteWithRetry, h]

/-- Witness for C4 at maxAttempts = 4 with an operation that always fails. -/
theorem c4_exhausted_after_all_attempts_witness :
    ExecuteWithRetry (fun _ => some "boom") (fun _ => false) 4 =
      { outcome := RetryOutcome.exhausted 4 (some "boom")
        execs := 3
        sleeps := [100, 200, 300] } :=
  ((c4_exhausted_after_all_attempts (fun _ => some "boom") (fun _ => false) 4
    (by norm_num) (fun _ => rfl) (fun _ => rfl)).1).trans (by rfl)

/-- Claim C5: on each failed attempt with another attempt remaining the
    executor sleeps attemptNumber * 100 milliseconds (linear backoff)
    before retrying, unless the deadline fires first: if attempts 1..a all
    fail, the deadline is quiet before attempt a and fires at the sleep
    after attempt a (with a < maxAttempts), the call returns the
    cancellation outcome immediately with exactly a executions and only the
    a - 1 earlier linear sleeps 100, 200, ..., (a-1)*100 completed. -/
theorem c5_linear_backoff_and_cancel (op : Nat → Option String)
    (cd : Nat → Bool) (m a : Nat) (ha1 : 1 ≤ a) (ham : a < m)
    (hop : ∀ i, i ≤ a → (op i).isSome)
    (hcd : ∀ i, i < a → cd i = false) (hca : cd a = true) :
    ExecuteWithRetry op cd m =
      { outcome := RetryOutcome.cancelled a
        execs := a
        sleeps := (List.range (a - 1)).map (fun j => (1 + j) * 100) } := by
  have h := retryLoop_cancel op cd m a ham hop hcd hca (m - 1) 1 none 0 []
    (by omega) ha1
  have hx : a + 1 - 1 = a := by omega
  rw [hx] at h
  simpa [ExecuteWithRetry] using h

/-- Witness for C5: the operation fails on attempts 1 and 2, the deadline
    fires during the sleep after attempt 2, maxAttempts = 4. -/
theorem c5_linear_backoff_and_cancel_witness :
    ExecuteWithRetry (fun _ => some "down") (fun i => i == 2) 4 =
      { outcome := RetryOutcome.cancelled 2
        execs := 2
        sleeps := [100] } :=
  (c5_linear_backoff_and_cancel (fun _ => some "down") (fun i => i == 2) 4 2
    (by norm_num) (by norm_num) (fun _ _ => rfl)
    (fun i hi => by
      have h1 : i = 0 ∨ i = 1 := by omega
      rcases h1 with h | h <;> simp [h])
    (by rfl)).trans (by rfl)

/-- Claim C10: ExecuteWithRetry never consults the deadline before the
    first execution of the operation: for every maxAttempts at least 2 and
    every deadline predicate, even one already expired at call time, the
    operation body executes, and if the first execution succeeds the call
    returns the success outcome after exactly one execution and no sleep. -/
theorem c10_deadline_unchecked_before_first_attempt (op : Nat → Option String)
    (cd : Nat → Bool) (m : Nat) (hm : 2 ≤ m) (h1 : op 1 = none) :
    ExecuteWithRetry op cd m =
      { outcome := RetryOutcome.ok 1, execs := 1, sleeps := [] } := by
  obtain ⟨k, rfl⟩ := Nat.exists_eq_add_of_le hm
  have hrem : 2 + k - 1 = k + 1 := by omega
  simp only [ExecuteWithRetry, hrem, retryLoop, h1]

/-- Witness for C10: the deadline predicate is everywhere expired, yet a
    first successful attempt returns the success outcome, not cancellation. -/
theorem c10_deadline_unchecked_before_first_attempt_witness :
    ExecuteWithRetry (fun _ => none) (fun _ => true) 2 =
      { outcome := RetryOutcome.ok 1, execs := 1, sleeps := [] } :=
  c10_deadline_unchecked_before_first_attempt (fun _ => none) (fun _ => true) 2
    (by norm_num) rfl

/-- Claim C1 is refuted by the source: the select in the monitoring loop
    has no case observing the lifecycle context, so after Close fires the
    cancellation signal a subsequent tick still runs a full monitoring
    cycle and still updates the health state. Evaluated at a concrete
    post-Close state with a failing probe. -/
theorem c1_monitor_ignores_close :
    SelectCase.ctxDone ∉ monitoringSelectCases ∧
    (let s0 : StoreState :=
      { health := { lastHealthCheck := 0, isHealthy := true }
        cancelled := false, cyclesRun := 0, monitorStarted := true }
     let s1 := Close s0
     let s2 := monitorTick
        { openConnections := 0, inUseConnections := 0, idleConnection := 0
          waitCount := 0, waitDuration := 0, maxIdleClosed := 0
          maxIdleTimeClosed := 0, maxLifeTimeClosed := 0 }
        (some "connection refused") monitorPeriod 10 s1
     s1.cancelled = true ∧ s2.cyclesRun = s1.cyclesRun + 1 ∧
       s2.health.isHealthy = false ∧ s2.health ≠ s1.health) := by
  constructor
  · decide
  · refine ⟨rfl, rfl, rfl, ?_⟩
    decide

/-- Claim C3 is refuted by the source: GetStats acquires the lock in read
    mode (mu.RLock) but releases it with the write-mode release
    (mu.Unlock), a mode mismatch that faults at run time under the RWMutex
    contract; HealthCheck and IsHealthy do follow matching-mode discipline. -/
theorem c3_getstats_lock_mode_mismatch :
    lockDisciplineOK getStatsLockEvents = false ∧
    runLocks getStatsLockEvents 0 0 = none ∧
    lockDisciplineOK healthCheckLockEvents = true ∧
    lockDisciplineOK isHealthyLockEvents = true := by
  decide

/-- Claim C6: newStore performs its single liveness probe under a
    10-time-unit timeout; when the probe fails it releases the opened
    handle (zero handles remain) and returns the connection error with no
    Store constructed; when the probe succeeds the returned Store has
    isHealthy = true and lastHealthCheck = now, and holds the one handle. -/
theorem c6_open_probe_and_cleanup (env : NewStoreEnv) (e : String) :
    newStorePingTimeout = 10000 ∧
    (env.openErr = none → env.pingErr = some e →
      newStore env = (Except.error ("failed to pink database: " ++ e), 0)) ∧
    (env.openErr = none → env.pingErr = none →
      newStore env =
        (Except.ok
          { health := { lastHealthCheck := env.now, isHealthy := true }
            cancelled := false, cyclesRun := 0, monitorStarted := true }, 1)) := by
  refine ⟨rfl, ?_, ?_⟩
  · intro h1 h2
    simp [newStore, h1, h2]
  · intro h1 h2
    simp [newStore, h1, h2]

/-- Witness for C6 at a concrete failing probe and a concrete succeeding
    open. -/
theorem c6_open_probe_and_cleanup_witness :
    newStore { openErr := none, pingErr := some "refused", now := 5 } =
      (Except.error ("failed to pink database: " ++ "refused"), 0) ∧
    newStore { openErr := none, pingErr := none, now := 5 } =
      (Except.ok
        { health := { lastHealthCheck := 5, isHealthy := true }
          cancelled := false, cyclesRun := 0, monitorStarted := true }, 1) :=
  ⟨(c6_open_probe_and_cleanup
      { openErr := none, pingErr := some "refused", now := 5 } "refused").2.1
      rfl rfl,
   (c6_open_probe_and_cleanup
      { openErr := none, pingErr := none, now := 5 } "refused").2.2 rfl rfl⟩

/-- Claim C7: HealthCheck runs as one exclusive-lock critical section
    (lock then unlock spanning the whole body), writes both
    lastHealthCheck = now and isHealthy = (probe succeeded) in that same
    critical section, and returns an error, wrapping the probe failure,
    exactly when the probe failed. -/
theorem c7_healthcheck_updates_and_error (s : HealthState) (p : Option String)
    (e : String) (now : Millis) :
    (HealthCheck s p now).1.lastHealthCheck = now ∧
    (HealthCheck s p now).1.isHealthy = p.isNone ∧
    ((HealthCheck s p now).2.isSome ↔ p.isSome) ∧
    (HealthCheck s (some e) now).2 =
      some ("database health check failed: " ++ e) ∧
    (HealthCheck s none now).2 = none ∧
    healthCheckLockEvents = [LockEvent.lock, LockEvent.unlock] := by
  cases p <;> simp [HealthCheck, healthCheckLockEvents]

/-- Helper: health states reached by a run of all-successful probes keep
    isHealthy = true. -/
lemma runProbes_all_success (probes : List (Option String × Millis)) :
    ∀ init : HealthState, init.isHealthy = true →
      (∀ p ∈ probes, p.1 = none) → (runProbes init probes).isHealthy = true := by
  induction probes with
  | nil => intro init h _; exact h
  | cons p rest ih =>
    intro init _ hall
    have hp : p.1 = none := hall p (List.mem_cons_self p rest)
    simp only [runProbes]
    exact ih _ (by simp [HealthCheck, hp]) (fun q hq => hall q (List.mem_cons_of_mem p hq))

/-- Helper: running probes splits over list append. -/
lemma runProbes_append (l1 l2 : List (Option String × Millis)) :
    ∀ init : HealthState, runProbes init (l1 ++ l2) = runProbes (runProbes init l1) l2 := by
  induction l1 with
  | nil => intro init; rfl
  | cons p rest ih =>
    intro init
    simp only [List.cons_append, runProbes]
    exact ih _

/-- Claim C8: after a successful newStore the health flag starts true and
    stays true as long as every completed probe succeeds; after any
    non-empty probe history it equals the outcome of the most recently
    completed probe; and IsHealthy only reads the stored flag, performing
    no probe. -/
theorem c8_ishealthy_tracks_last_probe (env : NewStoreEnv) (st : StoreState)
    (probes : List (Option String × Millis))
    (hopen : (newStore env).1 = Except.ok st) :
    IsHealthy st.health = true ∧
    ((∀ p ∈ probes, p.1 = none) →
      IsHealthy (runProbes st.health probes) = true) ∧
    (∀ pre last, probes = pre ++ [last] →
      IsHealthy (runProbes st.health probes) = last.1.isNone) ∧
    (∀ hs : HealthState, IsHealthy hs = hs.isHealthy) := by
  have hh : st.health.isHealthy = true := by
    cases ho : env.openErr with
    | some e => simp [newStore, ho] at hopen
    | none =>
      cases hp : env.pingErr with
      | some e => simp [newStore, ho, hp] at hopen
      | none =>
        simp only [newStore, ho, hp] at hopen
        cases hopen
        rfl
  refine ⟨hh, ?_, ?_, fun _ => rfl⟩
  · intro hall
    exact runProbes_all_success probes st.health hh hall
  · intro pre last hsplit
    rw [hsplit, runProbes_append pre [last] st.health]
    cases hl : last.1 <;> simp [runProbes, HealthCheck, IsHealthy, hl]

/-- Witness for C8 at a concrete successful open, one successful probe and
    one failing probe. -/
theorem c8_ishealthy_tracks_last_probe_witness :
    IsHealthy
      ({ health := { lastHealthCheck := 7, isHealthy := true }
         cancelled := false, cyclesRun := 0, monitorStarted := true } : StoreState).health = true ∧
    IsHealthy (runProbes { lastHealthCheck := 7, isHealthy := true }
      [(none, 10), (some "x", 20)]) = false := by
  have h := c8_ishealthy_tracks_last_probe
    { openErr := none, pingErr := none, now := 7 }
    { health := { lastHealthCheck := 7, isHealthy := true }
      cancelled := false, cyclesRun := 0, monitorStarted := true }
    [(none, 10), (some "x", 20)] rfl
  refine ⟨h.1, ?_⟩
  have h3 := h.2.2.1 [(none, 10)] (some "x", 20) rfl
  simpa using h3

/-- Claim C9: in a monitoring cycle the saturation warning is emitted
    exactly when openConnections exceeds 80 percent of the configured
    max-open bound (the truncated float threshold of the source equals the
    exact rational comparison 5 * open > 4 * max over the integers), and
    the latency warning is emitted exactly when the cumulative waitDuration
    exceeds one time unit. -/
theorem c9_warning_conditions (stats : ConnectionStats) (maxConns : Nat) :
    (Warning.saturation stats.openConnections maxConns ∈
        monitorWarnings stats maxConns ↔
      4 * maxConns < 5 * stats.openConnections) ∧
    (Warning.latency stats.waitDuration ∈ monitorWarnings stats maxConns ↔
      waitWarnThreshold < stats.waitDuration) := by
  have hdiv : saturationThreshold maxConns < stats.openConnections ↔
      4 * maxConns < 5 * stats.openConnections := by
    unfold saturationThreshold
    rw [Nat.div_lt_iff_lt_mul (by norm_num)]
    omega
  by_cases h1 : saturationThreshold maxConns < stats.openConnections <;>
    by_cases h2 : waitWarnThreshold < stats.waitDuration <;>
      simp [monitorWarnings, h1, h2, hdiv.symm]

end Postgres
